import Mathlib

/-!
Shallow embedding of `req.py`, a minimal concurrent HTTP load generator.

The program has three functions:

* `send_request(url)` performs one GET; on success it prints
  `Status Code: <code>, Content: <first 50 chars of body>`, on
  `requests.exceptions.RequestException` it prints `Request failed: <e>`;
  any other exception propagates.
* `worker(url, interval, num_requests)` loops `num_requests` times doing
  `send_request(url)` then `time.sleep(interval)`.
* `main()` parses `(url, requests, time)`, computes
  `interval = total_time / total_requests` (Python raises
  `ZeroDivisionError` when `total_requests == 0`), spawns one thread per
  request running `worker(url, interval, 1)`, and joins them all.

The network is modelled by an oracle assigning to each request the
transport-level result of its GET: a success with status code and body, a
`requests.exceptions.RequestException` carrying a description, or an
exception of any other type.  Each thread's behaviour is recorded as a
trace of events (GET issued, line printed, sleep performed) together with
an optionally propagated uncaught exception.  Reals (Python floats) are
modelled as rationals.
-/

namespace Limitly

/-- Transport-level result of one `requests.get(url)` call: a response
with status code and body text, a `requests.exceptions.RequestException`
with its string rendering, or an exception of any other type. -/
inductive GetResult where
  | success (status : Nat) (body : String)
  | requestException (desc : String)
  | otherException (desc : String)
deriving DecidableEq, Repr

/-- A transport outcome: anything `send_request` handles itself, i.e. not
an exception outside `requests.exceptions.RequestException`. -/
def GetResult.normal : GetResult → Bool
  | GetResult.otherException _ => false
  | _ => true

/-- One observable step of a thread: issuing the GET, printing a line to
stdout, or sleeping for a duration. -/
inductive Event where
  | get (url : String)
  | print (line : String)
  | sleep (dur : ℚ)
deriving DecidableEq, Repr

/-- Python `response.text[:50]`: the first 50 characters of the body, or
the whole body when it is shorter. -/
def snippet50 (body : String) : String :=
  ⟨body.data.take 50⟩

/-- The success output line of `send_request`:
`f"Status Code: {response.status_code}, Content: {response.text[:50]}"`
with the truncation already applied to the second argument. -/
def successLine (status : Nat) (snippet : String) : String :=
  "Status Code: " ++ toString status ++ ", Content: " ++ snippet

/-- The failure output line of `send_request`: `f"Request failed: {e}"`. -/
def failLine (desc : String) : String :=
  "Request failed: " ++ desc

/-- `send_request(url)` given the transport result of its GET.  Returns
the event trace and, in the second component, the description of an
uncaught exception if one propagates to the caller.  Mirrors

    try:
        response = requests.get(url)
        print(f"Status Code: ..., Content: ...")
    except requests.exceptions.RequestException as e:
        print(f"Request failed: {e}")
-/
def send_request (url : String) (r : GetResult) : List Event × Option String :=
  match r with
  | GetResult.success st body =>
      ([Event.get url, Event.print (successLine st (snippet50 body))], none)
  | GetResult.requestException e =>
      ([Event.get url, Event.print (failLine e)], none)
  | GetResult.otherException e =>
      ([Event.get url], some e)

/-- The single line `send_request` prints on a transport outcome. -/
def outLine : GetResult → String
  | GetResult.success st body => successLine st (snippet50 body)
  | GetResult.requestException e => failLine e
  | GetResult.otherException e => failLine e

/-- The loop body sequence of `worker(url, interval, num_requests)`
starting at iteration `i` with `n` iterations left: each iteration runs
`send_request(url)` (consulting the oracle at the iteration index) and
then `time.sleep(interval)`; an uncaught exception aborts the loop and
propagates. -/
def workerFrom (url : String) (iv : ℚ) (oracle : Nat → GetResult) :
    Nat → Nat → List Event × Option String
  | _, 0 => ([], none)
  | i, n + 1 =>
    let s := send_request url (oracle i)
    match s.2 with
    | some e => (s.1, some e)
    | none =>
      let rest := workerFrom url iv oracle (i + 1) n
      (s.1 ++ Event.sleep iv :: rest.1, rest.2)

/-- `worker(url, interval, num_requests)`:
`for _ in range(num_requests): send_request(url); time.sleep(interval)`. -/
def worker (url : String) (iv : ℚ) (oracle : Nat → GetResult)
    (num_requests : Nat) : List Event × Option String :=
  workerFrom url iv oracle 0 num_requests

/-- `interval = total_time / total_requests` (line 32 of `req.py`). -/
def interval (total_time : ℚ) (total_requests : Int) : ℚ :=
  total_time / (total_requests : ℚ)

/-- The Python-level error `main` can raise before dispatch. -/
inductive PyError where
  | zeroDivisionError
deriving DecidableEq, Repr

/-- Result of a completed run: one entry per dispatched thread, in spawn
order, holding that thread's event trace and its uncaught exception (if
any; a thread's uncaught exception kills only that thread). -/
structure RunResult where
  threads : List (List Event × Option String)
deriving DecidableEq, Repr

/-- `main()` after argument parsing.  `total_requests` is the parsed
Python int (possibly zero or negative), `total_time` the parsed float.
Computes `interval = total_time / total_requests` — a `ZeroDivisionError`
when `total_requests == 0` — then spawns `range(total_requests)` threads
(none when `total_requests < 0`), the k-th running `worker(url, interval, 1)`
whose single GET is answered by `oracle k`, and joins them all. -/
def main (url : String) (total_requests : Int) (total_time : ℚ)
    (oracle : Nat → GetResult) : Except PyError RunResult :=
  if total_requests = 0 then Except.error PyError.zeroDivisionError
  else
    Except.ok ⟨(List.range total_requests.toNat).map fun k =>
      worker url (interval total_time total_requests) (fun _ => oracle k) 1⟩

/-- The stdout lines of a trace, in order. -/
def lines (trace : List Event) : List String :=
  trace.filterMap fun e =>
    match e with
    | Event.print s => some s
    | _ => none

/-- The sleep durations of a trace, in order. -/
def sleeps (trace : List Event) : List ℚ :=
  trace.filterMap fun e =>
    match e with
    | Event.sleep d => some d
    | _ => none

/-- The urls of the GETs issued in a trace, in order. -/
def gets (trace : List Event) : List String :=
  trace.filterMap fun e =>
    match e with
    | Event.get u => some u
    | _ => none

/-- Total number of stdout lines of a run, across all threads. -/
def totalLines (res : RunResult) : Nat :=
  (res.threads.map fun t => (lines t.1).length).sum

/-- Timing model of the fan-in join (lines 43-44 of `req.py`):
`for thread in threads: thread.join()`.  With `spawnDone` the time the
spawn loop finishes and `completions` the completion times of the
dispatched threads, the join loop returns at the latest of these times —
it waits for every thread unconditionally, with no deadline. -/
def runReturnTime (spawnDone : ℚ) (completions : List ℚ) : ℚ :=
  completions.foldl max spawnDone

/-- The trace shape claimed by the spec for a dispatch unit: first sleep
for the interval, only then issue the GET and print its line. -/
def delayThenRequestCycle (url : String) (iv : ℚ) (t : List Event) : Prop :=
  ∃ line, t = [Event.sleep iv, Event.get url, Event.print line]

/-- The per-invocation output contract claimed by the spec for
`send_request`: no uncaught exception, exactly one line, and that line is
a success line (snippet at most 50 characters) or a failure line with a
non-empty description. -/
def emitsValidLine (url : String) (r : GetResult) : Prop :=
  (send_request url r).2 = none ∧
  ∃ l, lines (send_request url r).1 = [l] ∧
    ((∃ st sn, l = successLine st sn ∧ sn.length ≤ 50) ∨
     (∃ d, l = failLine d ∧ d ≠ ""))

/-- An oracle on which every request succeeds with status 200 and body
`"hello world"`. -/
def constOk : Nat → GetResult :=
  fun _ => GetResult.success 200 "hello world"

/-- An oracle mixing outcomes: request 0 succeeds, every later request
fails with a connection error. -/
def mixedOracle : Nat → GetResult
  | 0 => GetResult.success 200 "hello world"
  | _ + 1 => GetResult.requestException "connection refused"

end Limitly

namespace Limitly

/-- On a transport outcome, `send_request` issues the GET, prints its one
line, and propagates nothing. -/
lemma send_request_normal (url : String) (r : GetResult) (h : r.normal = true) :
    send_request url r = ([Event.get url, Event.print (outLine r)], none) := by
  cases r <;> simp_all [send_request, outLine, GetResult.normal]

/-- A single-request worker on a transport outcome: GET, print, sleep. -/
lemma worker_one (url : String) (iv : ℚ) (oracle : Nat → GetResult)
    (h : (oracle 0).normal = true) :
    worker url iv oracle 1 =
      ([Event.get url, Event.print (outLine (oracle 0)), Event.sleep iv], none) := by
  simp [worker, workerFrom, send_request_normal url (oracle 0) h]

/-- Full characterization of a run on transport outcomes: one thread per
`k < total_requests`, each with the trace GET, print, sleep. -/
lemma main_threads (url : String) (N : Int) (T : ℚ) (oracle : Nat → GetResult)
    (hN : N ≠ 0) (hnorm : ∀ k, (oracle k).normal = true) :
    main url N T oracle = Except.ok
      ⟨(List.range N.toNat).map fun k =>
        ([Event.get url, Event.print (outLine (oracle k)),
          Event.sleep (interval T N)], none)⟩ := by
  simp only [main, hN, if_false]
  congr 2
  refine List.map_congr_left fun k _ => ?_
  exact worker_one url (interval T N) (fun _ => oracle k) (hnorm k)

/-- The worker loop from iteration `i`, on transport outcomes, is `n`
blocks of GET, print, sleep, consuming oracle indices `i, i+1, ...`. -/
lemma workerFrom_eq (url : String) (iv : ℚ) (oracle : Nat → GetResult)
    (hnorm : ∀ j, (oracle j).normal = true) :
    ∀ n i, workerFrom url iv oracle i n =
      ((List.range n).flatMap fun j =>
        [Event.get url, Event.print (outLine (oracle (i + j))), Event.sleep iv],
       none) := by
  intro n
  induction n with
  | zero => intro i; simp [workerFrom]
  | succ n ih =>
    intro i
    rw [workerFrom, send_request_normal url (oracle i) (hnorm i)]
    simp only [ih (i + 1), List.range_succ_eq_map, List.flatMap_cons, List.flatMap_map]
    have hfun : (fun j : Nat =>
        [Event.get url, Event.print (outLine (oracle (i + 1 + j))), Event.sleep iv]) =
        fun j : Nat =>
          [Event.get url, Event.print (outLine (oracle (i + Nat.succ j))), Event.sleep iv] := by
      funext j
      have hj : i + 1 + j = i + Nat.succ j := by omega
      rw [hj]
    rw [hfun]
    simp [Function.comp]

/-- A success line starts with the character of its literal label. -/
lemma successLine_head (st : Nat) (sn : String) :
    (successLine st sn).data.head? = some 'S' := rfl

/-- A failure line starts with the character of its literal label. -/
lemma failLine_head (d : String) : (failLine d).data.head? = some 'R' := rfl

/-- The two output formats are mutually exclusive: no line is both a
success line and a failure line. -/
lemma successLine_ne_failLine (st : Nat) (sn d : String) :
    successLine st sn ≠ failLine d := by
  intro h
  have h2 : (successLine st sn).data.head? = (failLine d).data.head? := by rw [h]
  rw [successLine_head, failLine_head] at h2
  exact absurd h2 (by decide)

/-- A failure line determines its description. -/
lemma failLine_inj {d1 d2 : String} (h : failLine d1 = failLine d2) : d1 = d2 := by
  have h2 : "Request failed: ".data ++ d1.data = "Request failed: ".data ++ d2.data :=
    congrArg String.data h
  exact String.ext (List.append_cancel_left h2)

/-- The body snippet never exceeds 50 characters. -/
lemma snippet50_length_le (body : String) : (snippet50 body).length ≤ 50 := by
  simp only [snippet50, String.length, List.length_take]
  omega

/-- A body shorter than 50 characters is its own snippet. -/
lemma snippet50_short (body : String) (h : body.length < 50) :
    snippet50 body = body := by
  have h2 : body.data.take 50 = body.data :=
    List.take_of_length_le (Nat.le_of_lt h)
  unfold snippet50
  rw [h2]

/-- Stdout lines of a single-request trace. -/
lemma lines_unit (url l : String) (iv : ℚ) :
    lines [Event.get url, Event.print l, Event.sleep iv] = [l] := rfl

/-- GETs of a single-request trace. -/
lemma gets_unit (url l : String) (iv : ℚ) :
    gets [Event.get url, Event.print l, Event.sleep iv] = [url] := rfl

/-- Sleeps of a single-request trace. -/
lemma sleeps_unit (url l : String) (iv : ℚ) :
    sleeps [Event.get url, Event.print l, Event.sleep iv] = [iv] := rfl

/-- Summing 1 per element counts the elements. -/
lemma sum_map_one (l : List Nat) : (l.map fun _ => 1).sum = l.length := by
  induction l with
  | nil => rfl
  | cons x l ih =>
    simp only [List.map_cons, List.sum_cons, List.length_cons, ih]
    omega

/-- The running maximum dominates its starting value. -/
lemma le_foldl_max (cs : List ℚ) (a : ℚ) : a ≤ cs.foldl max a := by
  induction cs generalizing a with
  | nil => exact le_refl a
  | cons c cs ih => exact le_trans (le_max_left a c) (ih (max a c))

/-- The running maximum dominates every list element. -/
lemma mem_le_foldl_max (cs : List ℚ) (a c : ℚ) (h : c ∈ cs) : c ≤ cs.foldl max a := by
  induction cs generalizing a with
  | nil => cases h
  | cons c0 cs ih =>
    simp only [List.foldl_cons]
    rcases List.mem_cons.mp h with rfl | h
    · exact le_trans (le_max_right a c) (le_foldl_max cs (max a c))
    · exact ih (max a c0) h

end Limitly

namespace Limitly

/-- Claim C1: for every run configuration with `total_requests = N >= 1`
and `total_time = T >= 0`, a complete run produces exactly N output
lines, one per dispatched unit, whether each individual request succeeds
or fails. -/
theorem run_emits_one_line_per_unit (url : String) (N : Int) (T : ℚ)
    (oracle : Nat → GetResult) (hN : 1 ≤ N) (_hT : 0 ≤ T)
    (hnorm : ∀ k, (oracle k).normal = true) :
    ∃ res, main url N T oracle = Except.ok res ∧ (totalLines res : Int) = N := by
  refine ⟨_, main_threads url N T oracle (by omega) hnorm, ?_⟩
  have h1 : totalLines ⟨(List.range N.toNat).map fun k =>
      ([Event.get url, Event.print (outLine (oracle k)), Event.sleep (interval T N)],
        none)⟩ = N.toNat := by
    simp only [totalLines, List.map_map, Function.comp_def, lines_unit,
      List.length_cons, List.length_nil, Nat.zero_add, sum_map_one, List.length_range]
  rw [h1, Int.toNat_of_nonneg (by omega)]

/-- Witness for C1: a run with N = 2, T = 1 and one success plus one
failure produces exactly 2 output lines. -/
theorem run_emits_one_line_per_unit_witness :
    (1:Int) ≤ 2 ∧ (0:ℚ) ≤ 1 ∧
    ∃ res, main "http://example.test/ok" 2 1 mixedOracle = Except.ok res ∧
      (totalLines res : Int) = 2 :=
  ⟨by norm_num, by norm_num,
    run_emits_one_line_per_unit "http://example.test/ok" 2 1 mixedOracle
      (by norm_num) (by norm_num) (fun k => by cases k <;> rfl)⟩

/-- Counterexample to C2: in the run with `url = "u"`, `N = 1`, `T = 1`
(so `total_time > 0`) and a succeeding request, the single unit's trace
issues the GET first and sleeps last — it is not a delay-then-request
cycle, and its request is issued before any interval has elapsed. -/
theorem unit_trace_not_delay_then_request :
    main "u" 1 1 constOk =
      Except.ok ⟨[([Event.get "u",
        Event.print (successLine 200 (snippet50 "hello world")),
        Event.sleep (interval 1 1)], none)]⟩ ∧
    ¬ delayThenRequestCycle "u" (interval 1 1)
        [Event.get "u", Event.print (successLine 200 (snippet50 "hello world")),
         Event.sleep (interval 1 1)] := by
  refine ⟨rfl, ?_⟩
  rintro ⟨line, h⟩
  simp at h

/-- Claim C2 as amended: every dispatch unit performs exactly one
request-then-delay cycle — it invokes the Request Issuer once with the
configured url first, and only afterwards waits `interval`, so the
request is issued at the start of the unit, before any interval has
elapsed. -/
theorem unit_performs_request_then_delay (url : String) (N : Int) (T : ℚ)
    (oracle : Nat → GetResult) (hN : 1 ≤ N)
    (hnorm : ∀ k, (oracle k).normal = true) :
    ∃ res, main url N T oracle = Except.ok res ∧
      ∀ k, (hk : k < res.threads.length) →
        (res.threads.get ⟨k, hk⟩).1 =
          [Event.get url, Event.print (outLine (oracle k)),
           Event.sleep (interval T N)] := by
  refine ⟨_, main_threads url N T oracle (by omega) hnorm, ?_⟩
  intro k hk
  simp [List.get_eq_getElem]

/-- Witness for the amended C2: at N = 1, T = 1 the unit's trace is GET,
print, sleep. -/
theorem unit_performs_request_then_delay_witness :
    (1:Int) ≤ 1 ∧
    ∃ res, main "u" 1 1 constOk = Except.ok res ∧
      ∀ k, (hk : k < res.threads.length) →
        (res.threads.get ⟨k, hk⟩).1 =
          [Event.get "u", Event.print (outLine (constOk k)),
           Event.sleep (interval 1 1)] :=
  ⟨le_refl 1, unit_performs_request_then_delay "u" 1 1 constOk (le_refl 1)
    (fun _ => rfl)⟩

/-- Claim C3 (the code): `main` does not validate its configuration.  At
`total_requests = 0` the division `total_time / total_requests` raises
`ZeroDivisionError` — a crash at the scheduling step, not a configuration
error — and at `total_requests = -1` the run is accepted and silently
dispatches no unit instead of being rejected. -/
theorem zero_requests_reaches_division_crash :
    main "u" 0 1 constOk = Except.error PyError.zeroDivisionError ∧
    main "u" (-1) 1 constOk = Except.ok ⟨[]⟩ :=
  ⟨rfl, rfl⟩

/-- Counterexample to C4: on a `RequestException` whose string rendering
is empty, `send_request` emits the line `Request failed: ` whose
description is empty — the emitted line satisfies neither the success
format nor the failure-with-non-empty-description format. -/
theorem failure_description_can_be_empty :
    ¬ emitsValidLine "u" (GetResult.requestException "") := by
  rintro ⟨h0, l, hl, hform⟩
  have hl2 : failLine "" = l := by
    simpa [send_request, lines] using hl
  subst hl2
  rcases hform with ⟨st, sn, hs, hsn⟩ | ⟨d, hd, hne⟩
  · exact successLine_ne_failLine st sn "" hs.symm
  · exact hne (failLine_inj hd).symm

/-- Claim C4 as amended: on every transport outcome, `send_request`
raises nothing to its caller and emits exactly one output line; the line
is the success format (with a snippet of at most 50 characters) exactly
when the GET succeeded and otherwise the failure format whose description
is the transport error's text verbatim — possibly empty; and no line
matches both formats at once. -/
theorem issuer_emits_exactly_one_line (url : String) (r : GetResult)
    (h : r.normal = true) :
    (send_request url r).2 = none ∧
    lines (send_request url r).1 = [outLine r] ∧
    ((∃ st body, r = GetResult.success st body ∧
        outLine r = successLine st (snippet50 body) ∧ (snippet50 body).length ≤ 50) ∨
      (∃ d, r = GetResult.requestException d ∧ outLine r = failLine d)) ∧
    (∀ st sn d, successLine st sn ≠ failLine d) := by
  refine ⟨?_, ?_, ?_, successLine_ne_failLine⟩
  · rw [send_request_normal url r h]
  · rw [send_request_normal url r h]; rfl
  · cases r with
    | success st body =>
      exact Or.inl ⟨st, body, rfl, rfl, snippet50_length_le body⟩
    | requestException d => exact Or.inr ⟨d, rfl, rfl⟩
    | otherException d => simp [GetResult.normal] at h

/-- Witness for the amended C4: a concrete connection error produces
exactly the one failure line. -/
theorem issuer_emits_exactly_one_line_witness :
    (GetResult.requestException "connection refused").normal = true ∧
    lines (send_request "u" (GetResult.requestException "connection refused")).1 =
      [outLine (GetResult.requestException "connection refused")] :=
  ⟨rfl, (issuer_emits_exactly_one_line "u"
    (GetResult.requestException "connection refused") rfl).2.1⟩

/-- Claim C5: the fan-in join returns only at or after the completion of
every dispatched unit, and it enforces no global deadline — a unit whose
completion exceeds any bound B delays the return of the run past B. -/
theorem join_waits_for_every_unit (spawnDone : ℚ) (completions : List ℚ) :
    (∀ c ∈ completions, c ≤ runReturnTime spawnDone completions) ∧
    ∀ B : ℚ, B < runReturnTime spawnDone (completions ++ [B + 1]) := by
  constructor
  · intro c hc
    exact mem_le_foldl_max completions spawnDone c hc
  · intro B
    have h : B + 1 ≤ runReturnTime spawnDone (completions ++ [B + 1]) :=
      mem_le_foldl_max _ spawnDone (B + 1) (by simp)
    linarith

/-- Witness for C5 at concrete completion times. -/
theorem join_waits_for_every_unit_witness :
    (1:ℚ) ≤ runReturnTime 0 [1, 2] ∧ (5:ℚ) < runReturnTime 0 ([1, 2] ++ [5 + 1]) :=
  ⟨(join_waits_for_every_unit 0 [1, 2]).1 1 (by simp),
    (join_waits_for_every_unit 0 [1, 2]).2 5⟩

/-- Claim C6: in every valid configuration each of the N units issues its
GET exactly once, reports exactly its own outcome, and finishes with no
propagated failure — so a unit whose request fails neither aborts nor
suppresses any sibling, and all N outcomes are reported. -/
theorem failures_do_not_suppress_siblings (url : String) (N : Int) (T : ℚ)
    (oracle : Nat → GetResult) (hN : 1 ≤ N)
    (hnorm : ∀ k, (oracle k).normal = true) :
    ∃ res, main url N T oracle = Except.ok res ∧
      (res.threads.length : Int) = N ∧
      ∀ k, (hk : k < res.threads.length) →
        gets (res.threads.get ⟨k, hk⟩).1 = [url] ∧
        lines (res.threads.get ⟨k, hk⟩).1 = [outLine (oracle k)] ∧
        (res.threads.get ⟨k, hk⟩).2 = none := by
  refine ⟨_, main_threads url N T oracle (by omega) hnorm, ?_, ?_⟩
  · simp [Int.toNat_of_nonneg (by omega : (0:Int) ≤ N)]
  · intro k hk
    simp [List.get_eq_getElem, gets_unit, lines_unit]

/-- Witness for C6: a run mixing one success and one failure still
reports both outcomes, one GET each, with no unit aborted. -/
theorem failures_do_not_suppress_siblings_witness :
    (1:Int) ≤ 2 ∧
    ∃ res, main "http://example.test/mixed" 2 1 mixedOracle = Except.ok res ∧
      (res.threads.length : Int) = 2 ∧
      ∀ k, (hk : k < res.threads.length) →
        gets (res.threads.get ⟨k, hk⟩).1 = ["http://example.test/mixed"] ∧
        lines (res.threads.get ⟨k, hk⟩).1 = [outLine (mixedOracle k)] ∧
        (res.threads.get ⟨k, hk⟩).2 = none :=
  ⟨by norm_num,
    failures_do_not_suppress_siblings "http://example.test/mixed" 2 1 mixedOracle
      (by norm_num) (fun k => by cases k <;> rfl)⟩

/-- Claim C7: the per-request interval is computed exactly as
`total_time / total_requests`, and this single value is the sleep
duration of every dispatched unit. -/
theorem interval_is_time_div_requests_for_every_unit (url : String) (N : Int)
    (T : ℚ) (oracle : Nat → GetResult) (hN : 1 ≤ N)
    (hnorm : ∀ k, (oracle k).normal = true) :
    interval T N = T / (N : ℚ) ∧
    ∃ res, main url N T oracle = Except.ok res ∧
      ∀ k, (hk : k < res.threads.length) →
        sleeps (res.threads.get ⟨k, hk⟩).1 = [interval T N] := by
  refine ⟨rfl, _, main_threads url N T oracle (by omega) hnorm, ?_⟩
  intro k hk
  simp [List.get_eq_getElem, sleeps_unit]

/-- Witness for C7: N = 10, T = 5 yields interval 1/2, the sleep of every
unit. -/
theorem interval_is_time_div_requests_witness :
    (1:Int) ≤ 10 ∧ interval 5 10 = 1 / 2 ∧
    (interval 5 10 = 5 / ((10:Int) : ℚ) ∧
      ∃ res, main "u" 10 5 constOk = Except.ok res ∧
        ∀ k, (hk : k < res.threads.length) →
          sleeps (res.threads.get ⟨k, hk⟩).1 = [interval 5 10]) :=
  ⟨by norm_num, by norm_num [interval],
    interval_is_time_div_requests_for_every_unit "u" 10 5 constOk (by norm_num)
      (fun _ => rfl)⟩

/-- Claim C8: a successful request emits the line containing the numeric
status code and the first 50 characters of the body; the snippet never
exceeds 50 characters and equals the whole body when the body is shorter
than 50 characters. -/
theorem success_line_snippet_is_first_50_chars (url : String) (st : Nat)
    (body : String) :
    lines (send_request url (GetResult.success st body)).1 =
      [successLine st (snippet50 body)] ∧
    (snippet50 body).length ≤ 50 ∧
    (body.length < 50 → snippet50 body = body) :=
  ⟨rfl, snippet50_length_le body, snippet50_short body⟩

/-- Witness for C8 at the 11-character body of the spec's scenario. -/
theorem success_line_snippet_witness :
    "hello world".length < 50 ∧ snippet50 "hello world" = "hello world" ∧
    (snippet50 "hello world").length ≤ 50 ∧
    lines (send_request "u" (GetResult.success 200 "hello world")).1 =
      [successLine 200 (snippet50 "hello world")] :=
  ⟨by decide, (success_line_snippet_is_first_50_chars "u" 200 "hello world").2.2
      (by decide),
    (success_line_snippet_is_first_50_chars "u" 200 "hello world").2.1,
    (success_line_snippet_is_first_50_chars "u" 200 "hello world").1⟩

/-- Claim C9: `worker(url, interval, n)` performs exactly n
request-then-sleep cycles in that order — each cycle issues the GET and
prints first, then sleeps — it propagates nothing on transport outcomes,
and for n >= 1 its final event is the post-request sleep, so the unit
does not finish until after that sleep. -/
theorem worker_does_request_then_sleep_cycles (url : String) (iv : ℚ)
    (oracle : Nat → GetResult) (n : Nat)
    (hnorm : ∀ j, (oracle j).normal = true) :
    (worker url iv oracle n).1 =
      ((List.range n).flatMap fun j =>
        [Event.get url, Event.print (outLine (oracle j)), Event.sleep iv]) ∧
    (worker url iv oracle n).2 = none ∧
    (0 < n → (worker url iv oracle n).1.getLast? = some (Event.sleep iv)) := by
  have h := workerFrom_eq url iv oracle hnorm n 0
  have h1 : (worker url iv oracle n).1 =
      (List.range n).flatMap fun j =>
        [Event.get url, Event.print (outLine (oracle j)), Event.sleep iv] := by
    simp only [worker, h, Nat.zero_add]
  have h2 : (worker url iv oracle n).2 = none := by
    simp only [worker, h]
  refine ⟨h1, h2, ?_⟩
  intro hn
  rw [h1]
  obtain ⟨m, rfl⟩ : ∃ m, n = m + 1 := ⟨n - 1, by omega⟩
  simp [List.range_succ, List.flatMap_append]

/-- Witness for C9: a 2-iteration worker mixing a success and a failure
runs two GET-print-sleep cycles and ends on a sleep. -/
theorem worker_does_request_then_sleep_cycles_witness :
    0 < 2 ∧
    (worker "u" (1 / 2) mixedOracle 2).1 =
      ((List.range 2).flatMap fun j =>
        [Event.get "u", Event.print (outLine (mixedOracle j)),
         Event.sleep (1 / 2)]) ∧
    (worker "u" (1 / 2) mixedOracle 2).2 = none ∧
    (worker "u" (1 / 2) mixedOracle 2).1.getLast? = some (Event.sleep (1 / 2)) :=
  have h := worker_does_request_then_sleep_cycles "u" (1 / 2) mixedOracle 2
    (fun j => by cases j <;> rfl)
  ⟨by decide, h.1, h.2.1, h.2.2 (by decide)⟩

/-- Claim C10: `send_request` catches exactly the transport error type —
a `RequestException` is converted to a failure line and not propagated,
while an exception of any other type raised during the GET propagates to
the calling unit with no failure line printed, aborting that worker. -/
theorem only_request_exception_is_caught (url d : String) (iv : ℚ) :
    send_request url (GetResult.otherException d) = ([Event.get url], some d) ∧
    lines (send_request url (GetResult.otherException d)).1 = [] ∧
    (send_request url (GetResult.requestException d)).2 = none ∧
    (∀ st body, (send_request url (GetResult.success st body)).2 = none) ∧
    worker url iv (fun _ => GetResult.otherException d) 1 =
      ([Event.get url], some d) :=
  ⟨rfl, rfl, rfl, fun _ _ => rfl, rfl⟩

end Limitly
